import Mathlib

/-!
Verification of the ESPv2 service-control admission filter specification
against the repository sources.  The filter state enumeration and its field
initializers come from the C++ filter header; the Go flag surface comes from
src/go/configmanager/flags/flags.go and src/go/options/common.go.  The
Handler, CheckClient, retry policy and cache implementations are not part of
the provided sources, so they are modelled from the specification text and
each such definition is marked accordingly in its doc comment.
-/

namespace ESPv2

/-- Reason codes attached to a Denied outcome, from the error taxonomy of the
spec (section 7): IdentityInvalid, PolicyDenied, NetworkError, InternalError. -/
inductive DenyReason
  | PolicyDenied
  | NetworkError
  | IdentityInvalid
  | InternalError
deriving DecidableEq, Repr

/-- Result of a completed Check: Allowed, or Denied with a reason code.
Modelled from the spec data model (CheckOutcome). -/
inductive CheckOutcome
  | Allowed
  | Denied (reason : DenyReason)
deriving DecidableEq, Repr

/-- Result of one remote Check attempt as seen by the transport: either a
response from the control plane (which may explicitly deny) or a
transport-level failure (timeout etc.). -/
inductive AttemptResult
  | Ok (denied : Bool)
  | TransportError
deriving DecidableEq, Repr

/-- Raw result of a Check call after the retry loop has terminated: either a
control-plane response, or NetworkError once the retry budget is exhausted. -/
inductive RawCheckResult
  | Responded (denied : Bool)
  | NetworkError
deriving DecidableEq, Repr

/-- Modelled from the spec: the CheckClient retry loop (section 4.3).  The
first argument of the recursion is the remaining retry budget (fuel), the
second the index of the attempt about to be made.  Only transport-level
failures are retried; an explicit response terminates the loop.  Returns the
total number of attempts made together with the raw result. -/
def attemptLoop (oracle : Nat → AttemptResult) : Nat → Nat → Nat × RawCheckResult
  | 0, attempt =>
    match oracle attempt with
    | AttemptResult.Ok denied => (attempt + 1, RawCheckResult.Responded denied)
    | AttemptResult.TransportError => (attempt + 1, RawCheckResult.NetworkError)
  | fuel + 1, attempt =>
    match oracle attempt with
    | AttemptResult.Ok denied => (attempt + 1, RawCheckResult.Responded denied)
    | AttemptResult.TransportError => attemptLoop oracle fuel (attempt + 1)

/-- Modelled from the spec: a Check call with a configured retry count makes
the initial attempt plus at most that many retries. -/
def callCheckWithRetries (retries : Nat) (oracle : Nat → AttemptResult) :
    Nat × RawCheckResult :=
  attemptLoop oracle retries 0

/-- Modelled from the spec: the fail-open policy (section 4.3).  An explicit
control-plane denial becomes Denied PolicyDenied; a network error after
exhausted retries becomes a synthetic Allowed when NetworkFailOpen is set and
Denied NetworkError otherwise. -/
def applyFailOpen (networkFailOpen : Bool) : RawCheckResult → CheckOutcome
  | RawCheckResult.Responded denied =>
    if denied then CheckOutcome.Denied DenyReason.PolicyDenied else CheckOutcome.Allowed
  | RawCheckResult.NetworkError =>
    if networkFailOpen then CheckOutcome.Allowed
    else CheckOutcome.Denied DenyReason.NetworkError

/-- Modelled from the spec: exponential backoff interval of a retry attempt,
interval = min(baseInterval * 2 ^ attempt, maxInterval) (section 4.3). -/
def backoffInterval (baseInterval maxInterval attempt : Nat) : Nat :=
  min (baseInterval * 2 ^ attempt) maxInterval

/-- When every attempt is a transport error, the retry loop consumes the whole
budget: starting at attempt index a with fuel f it makes f + 1 further
attempts and reports NetworkError. -/
theorem attemptLoop_allFail (oracle : Nat → AttemptResult)
    (h : ∀ n, oracle n = AttemptResult.TransportError) :
    ∀ fuel attempt, attemptLoop oracle fuel attempt
      = (attempt + fuel + 1, RawCheckResult.NetworkError) := by
  intro fuel
  induction fuel with
  | zero =>
    intro attempt
    simp [attemptLoop, h attempt]
  | succ n ih =>
    intro attempt
    have := ih (attempt + 1)
    simp [attemptLoop, h attempt, this]
    omega

/-- Claim C2: when every Check attempt fails with a network error, exactly
retries + 1 attempts are made; after the budget is exhausted the outcome is a
synthetic Allowed when NetworkFailOpen is true and otherwise a Denied derived
from NetworkError, whose reason code differs from PolicyDenied. -/
theorem check_retry_exhaustion (retries : Nat) (networkFailOpen : Bool)
    (oracle : Nat → AttemptResult)
    (h : ∀ n, oracle n = AttemptResult.TransportError) :
    (callCheckWithRetries retries oracle).1 = retries + 1 ∧
    applyFailOpen networkFailOpen (callCheckWithRetries retries oracle).2
      = (if networkFailOpen then CheckOutcome.Allowed
         else CheckOutcome.Denied DenyReason.NetworkError) ∧
    DenyReason.NetworkError ≠ DenyReason.PolicyDenied := by
  have hloop := attemptLoop_allFail oracle h retries 0
  refine ⟨?_, ?_, by decide⟩
  · simp [callCheckWithRetries, hloop]
  · simp [callCheckWithRetries, hloop, applyFailOpen]

/-- Witness for check_retry_exhaustion at retries = 2, fail-open enabled, and
an oracle that always times out. -/
theorem check_retry_exhaustion_witness :
    (callCheckWithRetries 2 (fun _ => AttemptResult.TransportError)).1 = 2 + 1 ∧
    applyFailOpen true (callCheckWithRetries 2 (fun _ => AttemptResult.TransportError)).2
      = (if true then CheckOutcome.Allowed
         else CheckOutcome.Denied DenyReason.NetworkError) ∧
    DenyReason.NetworkError ≠ DenyReason.PolicyDenied :=
  check_retry_exhaustion 2 true (fun _ => AttemptResult.TransportError) (fun _ => rfl)

/-- Claim C4: for a fixed baseInterval and maxInterval the backoff interval of
attempt n equals min(baseInterval * 2 ^ n, maxInterval); the sequence of
intervals is non-decreasing in n and every interval is at most maxInterval. -/
theorem backoff_formula (baseInterval maxInterval n : Nat) :
    backoffInterval baseInterval maxInterval n
      = min (baseInterval * 2 ^ n) maxInterval ∧
    backoffInterval baseInterval maxInterval n
      ≤ backoffInterval baseInterval maxInterval (n + 1) ∧
    backoffInterval baseInterval maxInterval n ≤ maxInterval := by
  have hpow : baseInterval * 2 ^ n ≤ baseInterval * 2 ^ (n + 1) :=
    Nat.mul_le_mul (Nat.le_refl baseInterval)
      (Nat.pow_le_pow_right (by decide) (Nat.le_succ n))
  exact ⟨rfl, min_le_min hpow (le_refl maxInterval), Nat.min_le_right _ _⟩

/-- A validated-token cache entry: validated claims plus an expiry instant.
Modelled from the spec data model (CachedToken). -/
structure CachedToken where
  claims : String
  expiry : Nat
deriving DecidableEq, Repr

/-- Modelled from the spec: the bounded, expiry-aware validated-token cache
(sections 3 and 4.4).  Entries are kept most-recently-inserted first; a
capacity of zero disables caching entirely. -/
structure TokenCache where
  capacity : Nat
  entries : List (String × CachedToken)
deriving Repr

/-- A token cache with the given capacity and no entries. -/
def TokenCache.empty (capacity : Nat) : TokenCache :=
  { capacity := capacity, entries := [] }

/-- Modelled from the spec: cache lookup; a stored entry is returned only
while it is unexpired at the lookup instant. -/
def TokenCache.lookup (c : TokenCache) (now : Nat) (token : String) :
    Option CachedToken :=
  match c.entries.find? (fun e => e.1 == token) with
  | some e => if now < e.2.expiry then some e.2 else none
  | none => none

/-- Modelled from the spec: cache insertion.  Capacity zero disables caching
(the cache is returned unchanged); otherwise the new entry replaces any older
entry for the same token and the cache is truncated to its capacity, evicting
the oldest entries. -/
def TokenCache.insert (c : TokenCache) (token : String) (v : CachedToken) :
    TokenCache :=
  if c.capacity = 0 then c
  else
    { c with
      entries := ((token, v) :: c.entries.filter (fun e => !(e.1 == token))).take c.capacity }

/-- Modelled from the spec: eviction of expired entries at a given instant. -/
def TokenCache.evictExpired (c : TokenCache) (now : Nat) : TokenCache :=
  { c with entries := c.entries.filter (fun e => decide (now < e.2.expiry)) }

/-- Operations a sequence of requests can perform on the token cache. -/
inductive CacheOp
  | insertOp (token : String) (v : CachedToken)
  | evictExpiredOp (now : Nat)
deriving Repr

/-- Apply one cache operation. -/
def TokenCache.applyOp (c : TokenCache) : CacheOp → TokenCache
  | CacheOp.insertOp token v => c.insert token v
  | CacheOp.evictExpiredOp now => c.evictExpired now

/-- Apply a sequence of cache operations from left to right. -/
def TokenCache.runOps (c : TokenCache) (ops : List CacheOp) : TokenCache :=
  ops.foldl TokenCache.applyOp c

/-- Cache operations never change the configured capacity. -/
theorem TokenCache.applyOp_capacity (c : TokenCache) (op : CacheOp) :
    (c.applyOp op).capacity = c.capacity := by
  cases op with
  | insertOp token v =>
    simp only [TokenCache.applyOp, TokenCache.insert]
    split <;> rfl
  | evictExpiredOp now => rfl

/-- One cache operation preserves the bound: if the entry count is within
capacity before, it is within capacity after. -/
theorem TokenCache.applyOp_length (c : TokenCache) (op : CacheOp)
    (h : c.entries.length ≤ c.capacity) :
    (c.applyOp op).entries.length ≤ (c.applyOp op).capacity := by
  rw [TokenCache.applyOp_capacity]
  cases op with
  | insertOp token v =>
    simp only [TokenCache.applyOp, TokenCache.insert]
    split
    · exact h
    · simp only [List.length_take]
      exact Nat.min_le_left _ _
  | evictExpiredOp now =>
    simp only [TokenCache.applyOp, TokenCache.evictExpired]
    exact le_trans (List.length_filter_le _ _) h

/-- After any operation sequence the entry count stays within capacity when it
started within capacity. -/
theorem TokenCache.runOps_length (ops : List CacheOp) :
    ∀ c : TokenCache, c.entries.length ≤ c.capacity →
      (c.runOps ops).entries.length ≤ (c.runOps ops).capacity := by
  induction ops with
  | nil => intro c h; exact h
  | cons op rest ih =>
    intro c h
    exact ih (c.applyOp op) (TokenCache.applyOp_length c op h)

/-- A capacity-zero cache stays empty under any operation sequence. -/
theorem TokenCache.runOps_capacity_zero (ops : List CacheOp) :
    ∀ c : TokenCache, c.capacity = 0 → c.entries = [] →
      (c.runOps ops).capacity = 0 ∧ (c.runOps ops).entries = [] := by
  induction ops with
  | nil => intro c hcap hent; exact ⟨hcap, hent⟩
  | cons op rest ih =>
    intro c hcap hent
    refine ih (c.applyOp op) ?_ ?_
    · rw [TokenCache.applyOp_capacity]; exact hcap
    · cases op with
      | insertOp token v =>
        simp [TokenCache.applyOp, TokenCache.insert, hcap, hent]
      | evictExpiredOp now =>
        simp [TokenCache.applyOp, TokenCache.evictExpired, hent]

/-- Claim C7: a token cache of capacity zero never stores any entry, so every
lookup after any operation sequence is a miss; and for any capacity the cache,
starting empty, never holds more than capacity live entries. -/
theorem tokenCache_capacity_invariant (cap now : Nat) (ops : List CacheOp)
    (token : String) :
    TokenCache.lookup (TokenCache.runOps (TokenCache.empty 0) ops) now token = none ∧
    (TokenCache.runOps (TokenCache.empty cap) ops).entries.length ≤ cap := by
  constructor
  · have h := TokenCache.runOps_capacity_zero ops (TokenCache.empty 0) rfl rfl
    simp [TokenCache.lookup, h.2]
  · have h := TokenCache.runOps_length ops (TokenCache.empty cap) (by simp [TokenCache.empty])
    have hcap : (TokenCache.runOps (TokenCache.empty cap) ops).capacity = cap := by
      have : ∀ l : List CacheOp, ∀ c : TokenCache,
          (TokenCache.runOps c l).capacity = c.capacity := by
        intro l
        induction l with
        | nil => intro c; rfl
        | cons op rest ih =>
          intro c
          rw [TokenCache.runOps] at *
          simp only [List.foldl_cons] at *
          rw [show (List.foldl TokenCache.applyOp (c.applyOp op) rest).capacity
              = (c.applyOp op).capacity from ih (c.applyOp op)]
          exact TokenCache.applyOp_capacity c op
      exact this ops (TokenCache.empty cap)
    rw [hcap] at h
    exact h

/-- Modelled from the spec: the remote signing-key-set cache (CachedKeySet,
sections 3 and 4.4).  It maps an issuer identifier to key material and counts
the key-set retrievals it has performed. -/
structure KeySetCache where
  keySets : List (String × String)
  fetches : Nat
deriving DecidableEq, Repr

/-- Modelled from the spec: a key-set retrieval for an issuer; stores the
fetched key material and records that a fetch happened. -/
def KeySetCache.fetch (ks : KeySetCache) (issuer : String)
    (remote : String → String) : String × KeySetCache :=
  let keys := remote issuer
  (keys,
   { keySets := (issuer, keys) :: ks.keySets.filter (fun e => !(e.1 == issuer)),
     fetches := ks.fetches + 1 })

/-- Result of RequestHandler.Check: the outcome, the number of remote Check
calls made for this request, and the cache states afterwards. -/
structure HandlerCheckResult where
  outcome : CheckOutcome
  networkCalls : Nat
  tokenCache : TokenCache
  keySetCache : KeySetCache

/-- Modelled from the spec: RequestHandler.Check (section 4.2).  Identity is
resolved first: a cache lookup on the token; on a hit no key-set work is done;
on a miss the key set is fetched and the token validated against it, and a
valid token populates the token cache.  If identity resolution fails the
request is denied with IdentityInvalid and no remote Check call is made;
otherwise the network call is delegated to the CheckClient. -/
def handlerCheck (now : Nat) (validate : String → String → Option CachedToken)
    (remoteKeys : String → String) (issuer : String)
    (tc : TokenCache) (ks : KeySetCache) (token : String)
    (callRemote : Unit → CheckOutcome) : HandlerCheckResult :=
  match TokenCache.lookup tc now token with
  | some _ =>
    { outcome := callRemote (), networkCalls := 1,
      tokenCache := tc, keySetCache := ks }
  | none =>
    let fetched := KeySetCache.fetch ks issuer remoteKeys
    match validate fetched.1 token with
    | none =>
      { outcome := CheckOutcome.Denied DenyReason.IdentityInvalid,
        networkCalls := 0, tokenCache := tc, keySetCache := fetched.2 }
    | some v =>
      { outcome := callRemote (), networkCalls := 1,
        tokenCache := tc.insert token v, keySetCache := fetched.2 }

/-- Claim C5: when identity resolution fails for a request (the token is
missing from the cache and cannot be validated against any key set),
RequestHandler.Check returns Denied IdentityInvalid and makes no remote
network Check call. -/
theorem identity_invalid_no_network_call (now : Nat)
    (validate : String → String → Option CachedToken)
    (remoteKeys : String → String) (issuer : String)
    (tc : TokenCache) (ks : KeySetCache) (token : String)
    (callRemote : Unit → CheckOutcome)
    (hmiss : TokenCache.lookup tc now token = none)
    (hval : ∀ keys, validate keys token = none) :
    (handlerCheck now validate remoteKeys issuer tc ks token callRemote).outcome
      = CheckOutcome.Denied DenyReason.IdentityInvalid ∧
    (handlerCheck now validate remoteKeys issuer tc ks token callRemote).networkCalls
      = 0 := by
  simp [handlerCheck, hmiss, hval]

/-- Witness for identity_invalid_no_network_call: an empty cache and a
validator that rejects every token. -/
theorem identity_invalid_no_network_call_witness :
    (handlerCheck 0 (fun _ _ => none) (fun _ => "") "iss" (TokenCache.empty 4)
        { keySets := [], fetches := 0 } "tok" (fun _ => CheckOutcome.Allowed)).outcome
      = CheckOutcome.Denied DenyReason.IdentityInvalid ∧
    (handlerCheck 0 (fun _ _ => none) (fun _ => "") "iss" (TokenCache.empty 4)
        { keySets := [], fetches := 0 } "tok" (fun _ => CheckOutcome.Allowed)).networkCalls
      = 0 :=
  identity_invalid_no_network_call 0 (fun _ _ => none) (fun _ => "") "iss"
    (TokenCache.empty 4) { keySets := [], fetches := 0 } "tok"
    (fun _ => CheckOutcome.Allowed) rfl (fun _ => rfl)

/-- Claim C8: for a request whose token has a valid (unexpired) entry in the
token cache, Check performs no key-set fetch: the key-set cache is returned
unchanged (in particular its fetch count is unchanged) and the token cache is
also untouched. -/
theorem cached_token_no_keyset_fetch (now : Nat)
    (validate : String → String → Option CachedToken)
    (remoteKeys : String → String) (issuer : String)
    (tc : TokenCache) (ks : KeySetCache) (token : String)
    (callRemote : Unit → CheckOutcome)
    (hhit : (TokenCache.lookup tc now token).isSome = true) :
    (handlerCheck now validate remoteKeys issuer tc ks token callRemote).keySetCache
      = ks ∧
    (handlerCheck now validate remoteKeys issuer tc ks token callRemote).tokenCache
      = tc := by
  rcases hsome : TokenCache.lookup tc now token with _ | v
  · rw [hsome] at hhit
    simp at hhit
  · simp [handlerCheck, hsome]

/-- Witness for cached_token_no_keyset_fetch: a cache holding a still-valid
entry for the token. -/
theorem cached_token_no_keyset_fetch_witness :
    (handlerCheck 0 (fun _ _ => none) (fun _ => "") "iss"
        { capacity := 4, entries := [("tok", { claims := "alice", expiry := 9 })] }
        { keySets := [], fetches := 0 } "tok" (fun _ => CheckOutcome.Allowed)).keySetCache
      = { keySets := [], fetches := 0 } ∧
    (handlerCheck 0 (fun _ _ => none) (fun _ => "") "iss"
        { capacity := 4, entries := [("tok", { claims := "alice", expiry := 9 })] }
        { keySets := [], fetches := 0 } "tok" (fun _ => CheckOutcome.Allowed)).tokenCache
      = { capacity := 4, entries := [("tok", { claims := "alice", expiry := 9 })] } :=
  cached_token_no_keyset_fetch 0 (fun _ _ => none) (fun _ => "") "iss"
    { capacity := 4, entries := [("tok", { claims := "alice", expiry := 9 })] }
    { keySets := [], fetches := 0 } "tok" (fun _ => CheckOutcome.Allowed) (by decide)

/-- The request state of the filter, from the C++ filter header:
enum State { Init, Calling, Responded, Complete }. -/
inductive State
  | Init
  | Calling
  | Responded
  | Complete
deriving DecidableEq, Repr

/-- A usage report built from the request context plus the terminal response
status; modelled from the spec data model (ReportRecord). -/
structure ReportRecord where
  finalStatus : Nat
  wasForwarded : Bool
deriving DecidableEq, Repr

/-- The admission filter.  The fields state and stopped come from the C++
filter header (state underscore and stopped underscore members); checkCalls,
outcomes, forwarded and reports are instrumentation recording the Check calls
issued, the CheckOutcome values produced, whether the request was forwarded to
the backend, and the reports attempted. -/
structure Filter where
  state : State
  stopped : Bool
  checkCalls : Nat
  outcomes : List CheckOutcome
  forwarded : Bool
  reports : List ReportRecord
deriving DecidableEq, Repr

/-- A freshly constructed filter, with the member initializers of the C++
header: state is Init and the request has not been stopped; no Check has been
issued and nothing has been forwarded or reported. -/
def Filter.construct : Filter :=
  { state := State.Init, stopped := false, checkCalls := 0,
    outcomes := [], forwarded := false, reports := [] }

/-- Events delivered to the filter by the surrounding pipeline host: the
request headers, completion of the asynchronous Check call (with the raw
transport result), and end of stream carrying the terminal response status. -/
inductive Event
  | requestHeaders
  | checkDone (raw : RawCheckResult)
  | streamComplete (finalStatus : Nat)
deriving DecidableEq, Repr

/-- Modelled from the spec: on request headers in state Init the filter
transitions to Calling, issues the single Check call and pauses the pipeline
(section 4.1). -/
def Filter.onHeaders (f : Filter) : Filter :=
  if f.state = State.Init then
    { f with state := State.Calling, stopped := true,
             checkCalls := f.checkCalls + 1 }
  else f

/-- Modelled from the spec: completion of the Check call while in state
Calling (section 4.1).  The fail-open policy is applied to the raw result to
produce the CheckOutcome; on Allowed (including a fail-open synthetic
Allowed) the pipeline resumes and the request is forwarded; on Denied the
request is rejected without ever being forwarded.  Either way the filter
reaches Complete and is no longer stopped. -/
def Filter.onCheckDone (networkFailOpen : Bool) (f : Filter)
    (raw : RawCheckResult) : Filter :=
  if f.state = State.Calling then
    match applyFailOpen networkFailOpen raw with
    | CheckOutcome.Allowed =>
      { f with state := State.Complete, stopped := false,
               outcomes := f.outcomes ++ [CheckOutcome.Allowed],
               forwarded := true }
    | CheckOutcome.Denied r =>
      { f with state := State.Complete, stopped := false,
               outcomes := f.outcomes ++ [CheckOutcome.Denied r] }
  else f

/-- Modelled from the spec: the access-log hook fired when the stream
finishes (the log method of the filter header).  A ReportRecord is built from
the now-known terminal status and queued, regardless of the Check outcome and
in particular also for denied requests (section 4.1, Complete). -/
def Filter.onStreamComplete (f : Filter) (finalStatus : Nat) : Filter :=
  { f with reports := f.reports
      ++ [{ finalStatus := finalStatus, wasForwarded := f.forwarded }] }

/-- Dispatch one pipeline event to the filter. -/
def Filter.step (networkFailOpen : Bool) (f : Filter) : Event → Filter
  | Event.requestHeaders => f.onHeaders
  | Event.checkDone raw => f.onCheckDone networkFailOpen raw
  | Event.streamComplete finalStatus => f.onStreamComplete finalStatus

/-- Process a sequence of pipeline events from left to right. -/
def Filter.run (networkFailOpen : Bool) (f : Filter) (tr : List Event) : Filter :=
  tr.foldl (Filter.step networkFailOpen) f

/-- The admission invariant: at most one Check call, at most one outcome per
call, precise bookkeeping in each state, and forwarding only with an Allowed
outcome recorded. -/
def FilterInv (f : Filter) : Prop :=
  f.checkCalls ≤ 1 ∧
  f.outcomes.length ≤ f.checkCalls ∧
  (f.state = State.Init → f.checkCalls = 0) ∧
  (f.state = State.Calling → f.checkCalls = 1 ∧ f.outcomes = []) ∧
  (f.forwarded = true → f.outcomes = [CheckOutcome.Allowed]) ∧
  (f.state = State.Complete → f.checkCalls = 1 ∧ f.outcomes.length = 1)

/-- The freshly constructed filter satisfies the admission invariant. -/
theorem filterInv_construct : FilterInv Filter.construct := by
  simp [FilterInv, Filter.construct]

/-- Every pipeline event preserves the admission invariant. -/
theorem filterInv_step (networkFailOpen : Bool) (f : Filter) (e : Event)
    (h : FilterInv f) : FilterInv (Filter.step networkFailOpen f e) := by
  obtain ⟨h1, h2, h3, h4, h5, h6⟩ := h
  cases e with
  | requestHeaders =>
    simp only [Filter.step, Filter.onHeaders]
    split
    · rename_i hinit
      have hc0 := h3 hinit
      have hout : f.outcomes = [] := by
        rw [hc0] at h2
        exact List.length_eq_zero.mp (Nat.le_zero.mp h2)
      have hfwd : f.forwarded = false := by
        cases hf : f.forwarded
        · rfl
        · have h5f := h5 hf
          rw [h5f] at hout
          simp at hout
      refine ⟨?_, ?_, ?_, ?_, ?_, ?_⟩ <;> simp [hc0, hout, hfwd]
    · exact ⟨h1, h2, h3, h4, h5, h6⟩
  | checkDone raw =>
    simp only [Filter.step, Filter.onCheckDone]
    split
    · rename_i hcall
      obtain ⟨hc1, hout⟩ := h4 hcall
      cases hres : applyFailOpen networkFailOpen raw with
      | Allowed =>
        refine ⟨by simp [hc1], by simp [hout, hc1], by simp, by simp, ?_, ?_⟩
        · intro _; simp [hout]
        · intro _; simp [hout, hc1]
      | Denied r =>
        refine ⟨by simp [hc1], by simp [hout, hc1], by simp, by simp, ?_, ?_⟩
        · intro hfwd
          have := h5 hfwd
          rw [this] at hout
          simp at hout
        · intro _; simp [hout, hc1]
    · exact ⟨h1, h2, h3, h4, h5, h6⟩
  | streamComplete finalStatus =>
    simp only [Filter.step, Filter.onStreamComplete]
    exact ⟨h1, h2, h3, h4, h5, h6⟩

/-- Running any event sequence preserves the admission invariant. -/
theorem filterInv_run (networkFailOpen : Bool) (tr : List Event) :
    ∀ f : Filter, FilterInv f → FilterInv (Filter.run networkFailOpen f tr) := by
  induction tr with
  | nil => intro f h; exact h
  | cons e rest ih =>
    intro f h
    exact ih (Filter.step networkFailOpen f e) (filterInv_step networkFailOpen f e h)

/-- Claim C1: over any sequence of pipeline events, a filter makes at most one
Check call and records at most one CheckOutcome; whenever the request has been
forwarded to the backend, exactly one CheckOutcome exists and it is Allowed
(an explicit or fail-open synthetic Allowed); and once the gate is resolved
(state Complete) exactly one Check call was made and exactly one CheckOutcome
was produced. -/
theorem check_exactly_once_and_gated (networkFailOpen : Bool) (tr : List Event) :
    (Filter.run networkFailOpen Filter.construct tr).checkCalls ≤ 1 ∧
    (Filter.run networkFailOpen Filter.construct tr).outcomes.length ≤ 1 ∧
    ((Filter.run networkFailOpen Filter.construct tr).forwarded = true →
      (Filter.run networkFailOpen Filter.construct tr).outcomes
        = [CheckOutcome.Allowed]) ∧
    ((Filter.run networkFailOpen Filter.construct tr).state = State.Complete →
      (Filter.run networkFailOpen Filter.construct tr).checkCalls = 1 ∧
      (Filter.run networkFailOpen Filter.construct tr).outcomes.length = 1) := by
  have h := filterInv_run networkFailOpen tr Filter.construct filterInv_construct
  obtain ⟨h1, h2, _, _, h5, h6⟩ := h
  exact ⟨h1, le_trans h2 h1, h5, h6⟩

/-- Witness for check_exactly_once_and_gated on a concrete run: headers, a
Check completion after a network error under fail-open, then stream end. -/
theorem check_exactly_once_and_gated_witness :
    (Filter.run true Filter.construct
        [Event.requestHeaders, Event.checkDone RawCheckResult.NetworkError,
         Event.streamComplete 200]).checkCalls ≤ 1 ∧
    (Filter.run true Filter.construct
        [Event.requestHeaders, Event.checkDone RawCheckResult.NetworkError,
         Event.streamComplete 200]).outcomes.length ≤ 1 ∧
    ((Filter.run true Filter.construct
        [Event.requestHeaders, Event.checkDone RawCheckResult.NetworkError,
         Event.streamComplete 200]).forwarded = true →
      (Filter.run true Filter.construct
        [Event.requestHeaders, Event.checkDone RawCheckResult.NetworkError,
         Event.streamComplete 200]).outcomes = [CheckOutcome.Allowed]) ∧
    ((Filter.run true Filter.construct
        [Event.requestHeaders, Event.checkDone RawCheckResult.NetworkError,
         Event.streamComplete 200]).state = State.Complete →
      (Filter.run true Filter.construct
        [Event.requestHeaders, Event.checkDone RawCheckResult.NetworkError,
         Event.streamComplete 200]).checkCalls = 1 ∧
      (Filter.run true Filter.construct
        [Event.requestHeaders, Event.checkDone RawCheckResult.NetworkError,
         Event.streamComplete 200]).outcomes.length = 1) :=
  check_exactly_once_and_gated true
    [Event.requestHeaders, Event.checkDone RawCheckResult.NetworkError,
     Event.streamComplete 200]

/-- The terminal status carried by a stream-completion event, if any. -/
def terminalStatusOf : Event → Option Nat
  | Event.streamComplete s => some s
  | _ => none

/-- The reports produced by a run are exactly one per stream-completion event,
each built from the terminal status carried by its event. -/
theorem reports_run (networkFailOpen : Bool) (tr : List Event) :
    ∀ f : Filter, (Filter.run networkFailOpen f tr).reports.map ReportRecord.finalStatus
      = f.reports.map ReportRecord.finalStatus ++ tr.filterMap terminalStatusOf := by
  induction tr with
  | nil => intro f; simp [Filter.run]
  | cons e rest ih =>
    intro f
    have hstep : Filter.run networkFailOpen f (e :: rest)
        = Filter.run networkFailOpen (Filter.step networkFailOpen f e) rest := rfl
    rw [hstep, ih]
    cases e with
    | requestHeaders =>
      simp only [Filter.step, Filter.onHeaders, terminalStatusOf, List.filterMap_cons]
      split <;> simp [terminalStatusOf]
    | checkDone raw =>
      simp only [Filter.step, Filter.onCheckDone, List.filterMap_cons]
      split
      · split <;> simp [terminalStatusOf]
      · simp [terminalStatusOf]
    | streamComplete s =>
      simp [Filter.step, Filter.onStreamComplete, terminalStatusOf]

/-- Claim C6: for every run, the sequence of terminal statuses recorded in the
attempted reports equals the sequence of terminal statuses delivered by
stream-completion events: Report is attempted exactly once per completed
stream, each ReportRecord is constructed from the terminal response status
(hence only after it is known), and this holds regardless of the Check
outcome, in particular for denied requests. -/
theorem report_once_after_terminal_status (networkFailOpen : Bool)
    (tr : List Event) :
    (Filter.run networkFailOpen Filter.construct tr).reports.map
        ReportRecord.finalStatus
      = tr.filterMap terminalStatusOf := by
  have h := reports_run networkFailOpen tr Filter.construct
  simpa [Filter.construct] using h

/-- Claim C9: a newly constructed filter starts in state Init with the
stopped (pipeline-paused) flag false, and no Check has been issued and
nothing has been forwarded before the first request-headers event. -/
theorem filter_initial_state :
    Filter.construct.state = State.Init ∧
    Filter.construct.stopped = false ∧
    Filter.construct.checkCalls = 0 ∧
    Filter.construct.forwarded = false := by
  refine ⟨rfl, rfl, rfl, rfl⟩

/-- Which type of token to generate using the IAM Credentials API, from
src/go/options/common.go. -/
inductive IamTokenKind
  | AccessToken
  | IDToken
deriving DecidableEq, Repr

/-- IAM credentials configuration, from src/go/options/common.go. -/
structure IAMCredentialsOptions where
  ServiceAccountEmail : String
  TokenKind : IamTokenKind
  Delegates : List String
deriving Repr

/-- Common option overrides used by the ADS bootstrapper and the config
generator, from src/go/options/common.go.  Go durations are modelled as
integer nanosecond counts. -/
structure CommonOptions where
  AdminAddress : String
  AdminPort : Int
  AdsNamedPipe : String
  Node : String
  GeneratedHeaderPrefix : String
  DisableTracing : Bool
  TracingProjectId : String
  TracingStackdriverAddress : String
  TracingSamplingRate : Float
  TracingIncomingContext : String
  TracingOutgoingContext : String
  TracingMaxNumAttributes : Int
  TracingMaxNumAnnotations : Int
  TracingMaxNumMessageEvents : Int
  TracingMaxNumLinks : Int
  TracingEnableVerboseAnnotations : Bool
  NonGCP : Bool
  HttpRequestTimeout : Int
  MetadataURL : String
  IamURL : String
  ServiceControlCredentials : Option IAMCredentialsOptions
  BackendAuthCredentials : Option IAMCredentialsOptions
  DisallowColonInWildcardPathSegment : Bool
deriving Repr

/-- The assignment of values to the command-line flags declared in
src/go/configmanager/flags/flags.go, one field per flag variable.  Go flag
types are mapped as bool to Bool, string to String, int and int64 and
duration (nanoseconds) to Int, uint and uint64 to Nat.  The CommonFlags field
stands for the value returned by commonflags.DefaultCommonOptionsFromFlags,
whose defining package is an external collaborator. -/
structure Flags where
  CommonFlags : CommonOptions
  CorsAllowCredentials : Bool
  CorsAllowHeaders : String
  CorsAllowMethods : String
  CorsAllowOrigin : String
  CorsAllowOriginRegex : String
  CorsExposeHeaders : String
  CorsMaxAge : Int
  CorsPreset : String
  BackendDnsLookupFamily : String
  ClusterConnectTimeout : Int
  BackendAddress : String
  ListenerAddress : String
  ServiceManagementURL : String
  ServiceControlURL : String
  EnableBackendAddressOverride : Bool
  ListenerPort : Int
  Healthz : String
  HealthCheckGrpcBackend : Bool
  HealthCheckGrpcBackendService : String
  HealthCheckGrpcBackendInterval : Int
  HealthCheckGrpcBackendNoTrafficInterval : Int
  SslServerCertPath : String
  SslServerCipherSuites : String
  SslServerRootCertsPath : String
  SslSidestreamClientRootCertsPath : String
  SslBackendClientCertPath : String
  SslBackendClientRootCertsPath : String
  SslBackendClientCipherSuites : String
  SslMinimumProtocol : String
  SslMaximumProtocol : String
  EnableHSTS : Bool
  DnsResolverAddresses : String
  AddRequestHeaders : String
  AppendRequestHeaders : String
  AddResponseHeaders : String
  AppendResponseHeaders : String
  EnableOperationNameHeader : Bool
  ServiceAccountKey : String
  TokenAgentPort : Nat
  DisableOidcDiscovery : Bool
  DependencyErrorBehavior : String
  AccessLog : String
  AccessLogFormat : String
  EnvoyUseRemoteAddress : Bool
  EnvoyXffNumTrustedHops : Int
  LogJwtPayloads : String
  LogRequestHeaders : String
  LogResponseHeaders : String
  MinStreamReportIntervalMs : Nat
  SuppressEnvoyHeaders : Bool
  UnderscoresInHeaders : Bool
  NormalizePath : Bool
  MergeSlashesInPath : Bool
  DisallowEscapedSlashesInPath : Bool
  ServiceControlNetworkFailOpen : Bool
  EnableGrpcForHttp1 : Bool
  ConnectionBufferLimitBytes : Int
  DisableJwksAsyncFetch : Bool
  JwksAsyncFetchFastListener : Bool
  JwksCacheDurationInS : Int
  JwksFetchNumRetries : Int
  JwksFetchRetryBackOffBaseIntervalMs : Int
  JwksFetchRetryBackOffMaxIntervalMs : Int
  JwtPatForwardPayloadHeader : Bool
  JwtCacheSize : Nat
  ScCheckTimeoutMs : Int
  ScQuotaTimeoutMs : Int
  ScReportTimeoutMs : Int
  ScCheckRetries : Int
  ScQuotaRetries : Int
  ScReportRetries : Int
  ComputePlatformOverride : String
  SkipJwtAuthnFilter : Bool
  SkipServiceControlFilter : Bool
  StreamIdleTimeout : Int
  TranscodingAlwaysPrintPrimitiveFields : Bool
  TranscodingAlwaysPrintEnumsAsInts : Bool
  TranscodingPreserveProtoFieldNames : Bool
  TranscodingIgnoreQueryParameters : String
  TranscodingIgnoreUnknownQueryParameters : Bool
  TranscodingQueryParametersDisableUnescapePlus : Bool
  TranscodingMatchUnregisteredCustomVerb : Bool
  BackendRetryOns : String
  BackendRetryNum : Nat
  BackendPerTryTimeout : Int
  BackendRetryOnStatusCodes : String
  EnableResponseCompression : Bool
  BackendClusterMaxRequests : Int

/-- The config-generator options struct as constructed by
EnvoyConfigOptionsFromFlags in src/go/configmanager/flags/flags.go: the
common options, every flag-derived field of that struct literal, and the two
internally overridden fields APIAllowList and AllowDiscoveryAPIs. -/
structure ConfigGeneratorOptions where
  CommonOptions : CommonOptions
  BackendAddress : String
  EnableBackendAddressOverride : Bool
  AccessLog : String
  AccessLogFormat : String
  ComputePlatformOverride : String
  CorsAllowCredentials : Bool
  CorsAllowHeaders : String
  CorsAllowMethods : String
  CorsAllowOrigin : String
  CorsAllowOriginRegex : String
  CorsExposeHeaders : String
  CorsMaxAge : Int
  CorsPreset : String
  BackendDnsLookupFamily : String
  ClusterConnectTimeout : Int
  StreamIdleTimeout : Int
  ListenerAddress : String
  ServiceManagementURL : String
  ServiceControlURL : String
  ListenerPort : Int
  Healthz : String
  HealthCheckGrpcBackend : Bool
  HealthCheckGrpcBackendService : String
  HealthCheckGrpcBackendInterval : Int
  HealthCheckGrpcBackendNoTrafficInterval : Int
  SslSidestreamClientRootCertsPath : String
  SslBackendClientCertPath : String
  SslBackendClientRootCertsPath : String
  SslBackendClientCipherSuites : String
  SslServerCertPath : String
  SslServerCipherSuites : String
  SslServerRootCertPath : String
  SslMinimumProtocol : String
  SslMaximumProtocol : String
  EnableHSTS : Bool
  DnsResolverAddresses : String
  AddRequestHeaders : String
  AppendRequestHeaders : String
  AddResponseHeaders : String
  AppendResponseHeaders : String
  EnableOperationNameHeader : Bool
  ServiceAccountKey : String
  TokenAgentPort : Nat
  DisableOidcDiscovery : Bool
  DependencyErrorBehavior : String
  SkipJwtAuthnFilter : Bool
  SkipServiceControlFilter : Bool
  EnvoyUseRemoteAddress : Bool
  EnvoyXffNumTrustedHops : Int
  LogJwtPayloads : String
  LogRequestHeaders : String
  LogResponseHeaders : String
  MinStreamReportIntervalMs : Nat
  SuppressEnvoyHeaders : Bool
  UnderscoresInHeaders : Bool
  NormalizePath : Bool
  MergeSlashesInPath : Bool
  DisallowEscapedSlashesInPath : Bool
  ServiceControlNetworkFailOpen : Bool
  EnableGrpcForHttp1 : Bool
  ConnectionBufferLimitBytes : Int
  DisableJwksAsyncFetch : Bool
  JwksAsyncFetchFastListener : Bool
  JwksCacheDurationInS : Int
  JwksFetchNumRetries : Int
  JwksFetchRetryBackOffBaseInterval : Int
  JwksFetchRetryBackOffMaxInterval : Int
  JwtPadForwardPayloadHeader : Bool
  JwtCacheSize : Nat
  BackendRetryOns : String
  BackendRetryNum : Nat
  BackendPerTryTimeout : Int
  BackendRetryOnStatusCodes : String
  ScCheckTimeoutMs : Int
  ScQuotaTimeoutMs : Int
  ScReportTimeoutMs : Int
  ScCheckRetries : Int
  ScQuotaRetries : Int
  ScReportRetries : Int
  BackendClusterMaxRequests : Int
  TranscodingAlwaysPrintPrimitiveFields : Bool
  TranscodingAlwaysPrintEnumsAsInts : Bool
  TranscodingPreserveProtoFieldNames : Bool
  TranscodingIgnoreQueryParameters : String
  TranscodingIgnoreUnknownQueryParameters : Bool
  TranscodingQueryParametersDisableUnescapePlus : Bool
  TranscodingMatchUnregisteredCustomVerb : Bool
  EnableResponseCompression : Bool
  APIAllowList : List String
  AllowDiscoveryAPIs : Bool

/-- EnvoyConfigOptionsFromFlags from src/go/configmanager/flags/flags.go:
builds the config-generator options from the current flag values.  The two
millisecond backoff flags are converted to durations (nanoseconds), and
APIAllowList and AllowDiscoveryAPIs are set to their fixed internal values. -/
def EnvoyConfigOptionsFromFlags (f : Flags) : ConfigGeneratorOptions :=
  { CommonOptions := f.CommonFlags
    BackendAddress := f.BackendAddress
    EnableBackendAddressOverride := f.EnableBackendAddressOverride
    AccessLog := f.AccessLog
    AccessLogFormat := f.AccessLogFormat
    ComputePlatformOverride := f.ComputePlatformOverride
    CorsAllowCredentials := f.CorsAllowCredentials
    CorsAllowHeaders := f.CorsAllowHeaders
    CorsAllowMethods := f.CorsAllowMethods
    CorsAllowOrigin := f.CorsAllowOrigin
    CorsAllowOriginRegex := f.CorsAllowOriginRegex
    CorsExposeHeaders := f.CorsExposeHeaders
    CorsMaxAge := f.CorsMaxAge
    CorsPreset := f.CorsPreset
    BackendDnsLookupFamily := f.BackendDnsLookupFamily
    ClusterConnectTimeout := f.ClusterConnectTimeout
    StreamIdleTimeout := f.StreamIdleTimeout
    ListenerAddress := f.ListenerAddress
    ServiceManagementURL := f.ServiceManagementURL
    ServiceControlURL := f.ServiceControlURL
    ListenerPort := f.ListenerPort
    Healthz := f.Healthz
    HealthCheckGrpcBackend := f.HealthCheckGrpcBackend
    HealthCheckGrpcBackendService := f.HealthCheckGrpcBackendService
    HealthCheckGrpcBackendInterval := f.HealthCheckGrpcBackendInterval
    HealthCheckGrpcBackendNoTrafficInterval := f.HealthCheckGrpcBackendNoTrafficInterval
    SslSidestreamClientRootCertsPath := f.SslSidestreamClientRootCertsPath
    SslBackendClientCertPath := f.SslBackendClientCertPath
    SslBackendClientRootCertsPath := f.SslBackendClientRootCertsPath
    SslBackendClientCipherSuites := f.SslBackendClientCipherSuites
    SslServerCertPath := f.SslServerCertPath
    SslServerCipherSuites := f.SslServerCipherSuites
    SslServerRootCertPath := f.SslServerRootCertsPath
    SslMinimumProtocol := f.SslMinimumProtocol
    SslMaximumProtocol := f.SslMaximumProtocol
    EnableHSTS := f.EnableHSTS
    DnsResolverAddresses := f.DnsResolverAddresses
    AddRequestHeaders := f.AddRequestHeaders
    AppendRequestHeaders := f.AppendRequestHeaders
    AddResponseHeaders := f.AddResponseHeaders
    AppendResponseHeaders := f.AppendResponseHeaders
    EnableOperationNameHeader := f.EnableOperationNameHeader
    ServiceAccountKey := f.ServiceAccountKey
    TokenAgentPort := f.TokenAgentPort
    DisableOidcDiscovery := f.DisableOidcDiscovery
    DependencyErrorBehavior := f.DependencyErrorBehavior
    SkipJwtAuthnFilter := f.SkipJwtAuthnFilter
    SkipServiceControlFilter := f.SkipServiceControlFilter
    EnvoyUseRemoteAddress := f.EnvoyUseRemoteAddress
    EnvoyXffNumTrustedHops := f.EnvoyXffNumTrustedHops
    LogJwtPayloads := f.LogJwtPayloads
    LogRequestHeaders := f.LogRequestHeaders
    LogResponseHeaders := f.LogResponseHeaders
    MinStreamReportIntervalMs := f.MinStreamReportIntervalMs
    SuppressEnvoyHeaders := f.SuppressEnvoyHeaders
    UnderscoresInHeaders := f.UnderscoresInHeaders
    NormalizePath := f.NormalizePath
    MergeSlashesInPath := f.MergeSlashesInPath
    DisallowEscapedSlashesInPath := f.DisallowEscapedSlashesInPath
    ServiceControlNetworkFailOpen := f.ServiceControlNetworkFailOpen
    EnableGrpcForHttp1 := f.EnableGrpcForHttp1
    ConnectionBufferLimitBytes := f.ConnectionBufferLimitBytes
    DisableJwksAsyncFetch := f.DisableJwksAsyncFetch
    JwksAsyncFetchFastListener := f.JwksAsyncFetchFastListener
    JwksCacheDurationInS := f.JwksCacheDurationInS
    JwksFetchNumRetries := f.JwksFetchNumRetries
    JwksFetchRetryBackOffBaseInterval := f.JwksFetchRetryBackOffBaseIntervalMs * 1000000
    JwksFetchRetryBackOffMaxInterval := f.JwksFetchRetryBackOffMaxIntervalMs * 1000000
    JwtPadForwardPayloadHeader := f.JwtPatForwardPayloadHeader
    JwtCacheSize := f.JwtCacheSize
    BackendRetryOns := f.BackendRetryOns
    BackendRetryNum := f.BackendRetryNum
    BackendPerTryTimeout := f.BackendPerTryTimeout
    BackendRetryOnStatusCodes := f.BackendRetryOnStatusCodes
    ScCheckTimeoutMs := f.ScCheckTimeoutMs
    ScQuotaTimeoutMs := f.ScQuotaTimeoutMs
    ScReportTimeoutMs := f.ScReportTimeoutMs
    ScCheckRetries := f.ScCheckRetries
    ScQuotaRetries := f.ScQuotaRetries
    ScReportRetries := f.ScReportRetries
    BackendClusterMaxRequests := f.BackendClusterMaxRequests
    TranscodingAlwaysPrintPrimitiveFields := f.TranscodingAlwaysPrintPrimitiveFields
    TranscodingAlwaysPrintEnumsAsInts := f.TranscodingAlwaysPrintEnumsAsInts
    TranscodingPreserveProtoFieldNames := f.TranscodingPreserveProtoFieldNames
    TranscodingIgnoreQueryParameters := f.TranscodingIgnoreQueryParameters
    TranscodingIgnoreUnknownQueryParameters := f.TranscodingIgnoreUnknownQueryParameters
    TranscodingQueryParametersDisableUnescapePlus := f.TranscodingQueryParametersDisableUnescapePlus
    TranscodingMatchUnregisteredCustomVerb := f.TranscodingMatchUnregisteredCustomVerb
    EnableResponseCompression := f.EnableResponseCompression
    APIAllowList := []
    AllowDiscoveryAPIs := false }

/-- Claim C10: for every assignment of command-line flag values, the options
struct returned by EnvoyConfigOptionsFromFlags has an empty APIAllowList and
AllowDiscoveryAPIs set to false; no flag value influences these two fields. -/
theorem envoy_config_fixed_internal_fields (f : Flags) :
    (EnvoyConfigOptionsFromFlags f).APIAllowList = ([] : List String) ∧
    (EnvoyConfigOptionsFromFlags f).AllowDiscoveryAPIs = false :=
  ⟨rfl, rfl⟩

end ESPv2
